import Mathlib

/-!
Verification of the road-hazard backend core (server.js): haversine distance,
duplicate suppression, hazard lifecycle, resolution workflow, the connected-user
registry and the proximity dispatch. Numbers are modelled over the reals and
millisecond timestamps over the naturals.
-/

namespace RoadHazard

/-- Model of Math.atan2 over the reals (full quadrant handling; the haversine
formula only ever calls it with both arguments nonnegative). -/
noncomputable def atan2 (y x : ℝ) : ℝ :=
  if 0 < x then Real.arctan (y / x)
  else if x < 0 then
    (if 0 ≤ y then Real.arctan (y / x) + Real.pi else Real.arctan (y / x) - Real.pi)
  else if 0 < y then Real.pi / 2
  else if y < 0 then -(Real.pi / 2)
  else 0

/-- The intermediate value a of the source haversine computation in
calculateDistance: sin(dLat/2)*sin(dLat/2) + cos(lat1 rad)*cos(lat2 rad)*
sin(dLon/2)*sin(dLon/2), with degree inputs converted by pi/180. -/
noncomputable def haversineA (lat1 lon1 lat2 lon2 : ℝ) : ℝ :=
  Real.sin ((lat2 - lat1) * Real.pi / 180 / 2) * Real.sin ((lat2 - lat1) * Real.pi / 180 / 2) +
    Real.cos (lat1 * Real.pi / 180) * Real.cos (lat2 * Real.pi / 180) *
    Real.sin ((lon2 - lon1) * Real.pi / 180 / 2) * Real.sin ((lon2 - lon1) * Real.pi / 180 / 2)

/-- calculateDistance from server.js: R * c with R = 6371 km and
c = 2 * atan2(sqrt(a), sqrt(1 - a)). -/
noncomputable def calculateDistance (lat1 lon1 lat2 lon2 : ℝ) : ℝ :=
  6371 * (2 * atan2 (Real.sqrt (haversineA lat1 lon1 lat2 lon2))
    (Real.sqrt (1 - haversineA lat1 lon1 lat2 lon2)))

lemma haversineA_self (lat lon : ℝ) : haversineA lat lon lat lon = 0 := by
  unfold haversineA
  simp

lemma atan2_zero_one : atan2 0 1 = 0 := by
  unfold atan2
  norm_num

lemma calculateDistance_self (lat lon : ℝ) : calculateDistance lat lon lat lon = 0 := by
  unfold calculateDistance
  rw [haversineA_self]
  norm_num [atan2_zero_one]

lemma haversineA_symm (lat1 lon1 lat2 lon2 : ℝ) :
    haversineA lat1 lon1 lat2 lon2 = haversineA lat2 lon2 lat1 lon1 := by
  unfold haversineA
  have h : ∀ a b : ℝ,
      Real.sin ((a - b) * Real.pi / 180 / 2) = -Real.sin ((b - a) * Real.pi / 180 / 2) := by
    intro a b
    have e : (a - b) * Real.pi / 180 / 2 = -((b - a) * Real.pi / 180 / 2) := by ring
    rw [e, Real.sin_neg]
  rw [h lat2 lat1, h lon2 lon1]
  ring

lemma calculateDistance_symm (lat1 lon1 lat2 lon2 : ℝ) :
    calculateDistance lat1 lon1 lat2 lon2 = calculateDistance lat2 lon2 lat1 lon1 := by
  unfold calculateDistance
  rw [haversineA_symm]

lemma cos_deg_lat_nonneg {lat : ℝ} (h1 : -90 ≤ lat) (h2 : lat ≤ 90) :
    0 ≤ Real.cos (lat * Real.pi / 180) := by
  apply Real.cos_nonneg_of_mem_Icc
  have hπ := Real.pi_pos
  constructor
  · nlinarith [mul_nonneg (show (0:ℝ) ≤ lat + 90 by linarith) hπ.le]
  · nlinarith [mul_nonneg (show (0:ℝ) ≤ 90 - lat by linarith) hπ.le]

lemma haversineA_nonneg {lat1 lon1 lat2 lon2 : ℝ}
    (h1 : -90 ≤ lat1) (h2 : lat1 ≤ 90) (h3 : -90 ≤ lat2) (h4 : lat2 ≤ 90) :
    0 ≤ haversineA lat1 lon1 lat2 lon2 := by
  unfold haversineA
  have hc1 := cos_deg_lat_nonneg h1 h2
  have hc2 := cos_deg_lat_nonneg h3 h4
  nlinarith [mul_self_nonneg (Real.sin ((lat2 - lat1) * Real.pi / 180 / 2)),
    mul_self_nonneg (Real.sin ((lon2 - lon1) * Real.pi / 180 / 2)),
    mul_nonneg hc1 hc2,
    mul_nonneg (mul_nonneg hc1 hc2) (mul_self_nonneg (Real.sin ((lon2 - lon1) * Real.pi / 180 / 2)))]

lemma haversineA_le_one {lat1 lon1 lat2 lon2 : ℝ}
    (h1 : -90 ≤ lat1) (h2 : lat1 ≤ 90) (h3 : -90 ≤ lat2) (h4 : lat2 ≤ 90) :
    haversineA lat1 lon1 lat2 lon2 ≤ 1 := by
  unfold haversineA
  have hc1 := cos_deg_lat_nonneg h1 h2
  have hc2 := cos_deg_lat_nonneg h3 h4
  have hs1 : Real.sin ((lat2 - lat1) * Real.pi / 180 / 2) *
      Real.sin ((lat2 - lat1) * Real.pi / 180 / 2)
        = 1 / 2 - Real.cos (lat2 * Real.pi / 180 - lat1 * Real.pi / 180) / 2 := by
    rw [← pow_two, Real.sin_sq_eq_half_sub]
    have harg : 2 * ((lat2 - lat1) * Real.pi / 180 / 2)
        = lat2 * Real.pi / 180 - lat1 * Real.pi / 180 := by ring
    rw [harg]
  have hsub : Real.cos (lat2 * Real.pi / 180 - lat1 * Real.pi / 180)
      = Real.cos (lat2 * Real.pi / 180) * Real.cos (lat1 * Real.pi / 180)
        + Real.sin (lat2 * Real.pi / 180) * Real.sin (lat1 * Real.pi / 180) :=
    Real.cos_sub _ _
  have hadd : Real.cos (lat2 * Real.pi / 180 + lat1 * Real.pi / 180)
      = Real.cos (lat2 * Real.pi / 180) * Real.cos (lat1 * Real.pi / 180)
        - Real.sin (lat2 * Real.pi / 180) * Real.sin (lat1 * Real.pi / 180) :=
    Real.cos_add _ _
  have hle1 : Real.cos (lat2 * Real.pi / 180 + lat1 * Real.pi / 180) ≤ 1 :=
    Real.cos_le_one _
  have ht1 : Real.sin ((lon2 - lon1) * Real.pi / 180 / 2) *
      Real.sin ((lon2 - lon1) * Real.pi / 180 / 2) ≤ 1 := by
    nlinarith [Real.neg_one_le_sin ((lon2 - lon1) * Real.pi / 180 / 2),
      Real.sin_le_one ((lon2 - lon1) * Real.pi / 180 / 2)]
  have ht0 : 0 ≤ Real.sin ((lon2 - lon1) * Real.pi / 180 / 2) *
      Real.sin ((lon2 - lon1) * Real.pi / 180 / 2) := mul_self_nonneg _
  nlinarith [mul_nonneg (mul_nonneg hc1 hc2) ht0,
    mul_nonneg (mul_nonneg hc1 hc2) (by linarith :
      0 ≤ 1 - Real.sin ((lon2 - lon1) * Real.pi / 180 / 2) *
        Real.sin ((lon2 - lon1) * Real.pi / 180 / 2))]

/-! Data model: hazards, report inputs, outbound events, connected users. -/

/-- Hazard lifecycle states; the source only ever stores the strings for
active and resolved. -/
inductive Status where
  | active
  | resolved
deriving DecidableEq

/-- One hazard record as built by the report handler in server.js. -/
structure Hazard where
  id : ℕ
  type : String
  latitude : ℝ
  longitude : ℝ
  severity : String
  confidence : ℕ
  imageUrl : Option String
  timestamp : ℕ
  status : Status
  reportedBy : String
  resolvedBy : Option String
  resolvedAt : Option ℕ
  resolvedImageUrl : Option String

/-- The request body fields read by the report handler. -/
structure ReportInput where
  type : String
  latitude : ℝ
  longitude : ℝ
  severity : String
  deviceId : String
  confidence : Option ℕ
  imageUrl : Option String

/-- JavaScript c.or.d over a number-or-null: 0 and null are falsy, so
both fall back to the default. Models the source expression with the or
operator applied to confidence and 100. -/
def jsNumberOrDefault (c : Option ℕ) (dflt : ℕ) : ℕ :=
  match c with
  | none => dflt
  | some n => if n = 0 then dflt else n

/-- The hazard object literal built by the report handler: id and timestamp
both come from the current millisecond clock. -/
def mkHazard (inp : ReportInput) (now : ℕ) : Hazard :=
  { id := now
    type := inp.type
    latitude := inp.latitude
    longitude := inp.longitude
    severity := inp.severity
    confidence := jsNumberOrDefault inp.confidence 100
    imageUrl := inp.imageUrl
    timestamp := now
    status := Status.active
    reportedBy := inp.deviceId
    resolvedBy := none
    resolvedAt := none
    resolvedImageUrl := none }

/-- The per-hazard predicate of isDuplicate in server.js: resolved hazards are
skipped, otherwise distance strictly below 0.1 km, equal type, and time since
creation strictly below 300000 ms. -/
noncomputable def duplicateMatch (lat lng : ℝ) (ty : String) (now : ℕ) (h : Hazard) : Bool :=
  if h.status = Status.resolved then false
  else
    decide (calculateDistance h.latitude h.longitude lat lng < 0.1) &&
    (h.type == ty) &&
    decide ((now : ℤ) - (h.timestamp : ℤ) < 300000)

/-- isDuplicate from server.js: some hazard in the store matches. -/
noncomputable def isDuplicate (hazards : List Hazard) (lat lng : ℝ) (ty : String)
    (now : ℕ) : Bool :=
  hazards.any (duplicateMatch lat lng ty now)

/-- Outcome of the report handler. -/
inductive ReportResult where
  | duplicate
  | created (h : Hazard)

/-- Outbound socket events emitted by the handlers. -/
inductive Event where
  | hazardAlert (h : Hazard)
  | proximityAlert (socketId : String) (h : Hazard) (distance : ℝ)
  | hazardResolved (hazardId : ℕ) (resolvedAt : ℕ) (resolvedBy : String)

/-- Recognizes the global hazard broadcast sent to all connections. -/
def Event.isGlobalHazardAlert : Event → Bool
  | Event.hazardAlert _ => true
  | _ => false

/-- One entry of the activeUsers map. -/
structure ConnectedUser where
  socketId : String
  latitude : ℝ
  longitude : ℝ

/-- The activeUsers map, as an insertion-ordered association list keyed by
userId, matching JavaScript Map iteration order. -/
abbrev Registry := List (String × ConnectedUser)

/-- toFixed applied with 2 over a nonnegative distance: round half up to two
decimal places. -/
noncomputable def round2 (d : ℝ) : ℝ := ((⌊d * 100 + 1 / 2⌋ : ℤ) : ℝ) / 100

/-- The body of the proximity fan-out loop over activeUsers: a user receives
an alert carrying the hazard and the rounded distance exactly when the
distance from the last reported location to the new hazard is at most 1 km. -/
noncomputable def proximityEventFor (inp : ReportInput) (hazard : Hazard)
    (e : String × ConnectedUser) : Option Event :=
  let d := calculateDistance e.2.latitude e.2.longitude inp.latitude inp.longitude
  if d ≤ 1 then some (Event.proximityAlert e.2.socketId hazard (round2 d)) else none

/-- The report handler: duplicate check, insert, global broadcast and the
proximity fan-out over activeUsers (alert when distance is at most 1 km). -/
noncomputable def reportHandler (hazards : List Hazard) (users : Registry)
    (inp : ReportInput) (now : ℕ) : List Hazard × ReportResult × List Event :=
  if isDuplicate hazards inp.latitude inp.longitude inp.type now then
    (hazards, ReportResult.duplicate, [])
  else
    let hazard := mkHazard inp now
    (hazards ++ [hazard], ReportResult.created hazard,
      Event.hazardAlert hazard :: users.filterMap (proximityEventFor inp hazard))

/-- Outcome of the resolve handler. -/
inductive ResolveResult where
  | notFound
  | alreadyResolved
  | tooFar (distance : ℝ)
  | resolved (h : Hazard)

/-- The field mutations the resolve handler applies to the found hazard. -/
def resolveUpdate (dev : String) (img : Option String) (now : ℕ) (h : Hazard) : Hazard :=
  { h with status := Status.resolved
           resolvedBy := some dev
           resolvedAt := some now
           resolvedImageUrl := img }

/-- In-place mutation of the first list element with the given id, mirroring
mutation of the object returned by Array find. -/
def updateFirst (l : List Hazard) (hid : ℕ) (f : Hazard → Hazard) : List Hazard :=
  match l with
  | [] => []
  | h :: t => if h.id = hid then f h :: t else h :: updateFirst t hid f

/-- The resolve handler from server.js: find by id, already-resolved check,
proximity check against 1 km, then the mutation and a resolution broadcast. -/
noncomputable def resolveHandler (hazards : List Hazard) (hid : ℕ) (lat lng : ℝ)
    (dev : String) (img : Option String) (now : ℕ) :
    List Hazard × ResolveResult × List Event :=
  match hazards.find? (fun h => h.id == hid) with
  | none => (hazards, ResolveResult.notFound, [])
  | some h =>
    if h.status = Status.resolved then
      (hazards, ResolveResult.alreadyResolved, [])
    else
      if 1 < calculateDistance lat lng h.latitude h.longitude then
        (hazards, ResolveResult.tooFar (calculateDistance lat lng h.latitude h.longitude), [])
      else
        (updateFirst hazards hid (resolveUpdate dev img now),
          ResolveResult.resolved (resolveUpdate dev img now h),
          [Event.hazardResolved h.id now dev])

/-- Map.set over activeUsers: replace the entry in place when the userId is
already present, otherwise append. -/
def registerLocation (users : Registry) (userId socketId : String) (lat lng : ℝ) : Registry :=
  if users.any (fun e => e.1 == userId) then
    users.map (fun e => if e.1 = userId then (e.1, ⟨socketId, lat, lng⟩) else e)
  else
    users ++ [(userId, ⟨socketId, lat, lng⟩)]

/-- update of latitude and longitude for a registered user; silently dropped
when the user is unknown. -/
def updateLocation (users : Registry) (userId : String) (lat lng : ℝ) : Registry :=
  users.map (fun e =>
    if e.1 = userId then (e.1, { e.2 with latitude := lat, longitude := lng }) else e)

/-- The disconnect cleanup loop in server.js: scan activeUsers in iteration
order, delete the first entry bound to the socket, then break. -/
def handleDisconnect (users : Registry) (socketId : String) : Registry :=
  match users with
  | [] => []
  | e :: rest =>
    if e.2.socketId = socketId then rest else e :: handleDisconnect rest socketId

/-- Hazard stores reachable from the empty store by any interleaving of report
and resolve requests. -/
inductive Reachable : List Hazard → Prop where
  | init : Reachable []
  | report (hs : List Hazard) (users : Registry) (inp : ReportInput) (now : ℕ) :
      Reachable hs → Reachable (reportHandler hs users inp now).1
  | resolve (hs : List Hazard) (hid : ℕ) (lat lng : ℝ) (dev : String)
      (img : Option String) (now : ℕ) :
      Reachable hs → Reachable (resolveHandler hs hid lat lng dev img now).1

/-! Basic facts about the duplicate check. -/

lemma duplicateMatch_eq_true_iff (lat lng : ℝ) (ty : String) (now : ℕ) (h : Hazard) :
    duplicateMatch lat lng ty now h = true ↔
      h.status = Status.active ∧ h.type = ty ∧
        calculateDistance h.latitude h.longitude lat lng < 0.1 ∧
        (now : ℤ) - (h.timestamp : ℤ) < 300000 := by
  unfold duplicateMatch
  cases hst : h.status
  · simp only [hst, Bool.and_eq_true, decide_eq_true_eq, beq_iff_eq, if_neg
      (by simp : ¬(Status.active = Status.resolved))]
    tauto
  · simp [hst]

lemma isDuplicate_iff (hazards : List Hazard) (lat lng : ℝ) (ty : String) (now : ℕ) :
    isDuplicate hazards lat lng ty now = true ↔
      ∃ h ∈ hazards, h.status = Status.active ∧ h.type = ty ∧
        calculateDistance h.latitude h.longitude lat lng < 0.1 ∧
        (now : ℤ) - (h.timestamp : ℤ) < 300000 := by
  unfold isDuplicate
  rw [List.any_eq_true]
  constructor
  · rintro ⟨h, hmem, hb⟩
    exact ⟨h, hmem, (duplicateMatch_eq_true_iff lat lng ty now h).mp hb⟩
  · rintro ⟨h, hmem, hp⟩
    exact ⟨h, hmem, (duplicateMatch_eq_true_iff lat lng ty now h).mpr hp⟩

lemma isDuplicate_nil (lat lng : ℝ) (ty : String) (now : ℕ) :
    isDuplicate [] lat lng ty now = false := rfl

/-- C1: the duplicate check used by report returns true if and only if the
store holds an active hazard of the same type whose haversine distance to the
candidate is strictly below 0.1 km and whose creation time is strictly less
than 300000 ms before the candidate timestamp; resolved hazards never match
and the metric is the haversine calculateDistance. -/
theorem isDuplicate_matches_active_haversine (hazards : List Hazard) (lat lng : ℝ)
    (ty : String) (now : ℕ) :
    isDuplicate hazards lat lng ty now = true ↔
      ∃ h ∈ hazards, h.status = Status.active ∧ h.type = ty ∧
        calculateDistance h.latitude h.longitude lat lng < 0.1 ∧
        (now : ℤ) - (h.timestamp : ℤ) < 300000 :=
  isDuplicate_iff hazards lat lng ty now

/-- C9: for valid coordinates the haversine distance is zero on coincident
points and symmetric, and the radicand of both square roots stays inside
the unit interval, so no square root of a negative number occurs. -/
theorem distance_zero_symm_stable (lat1 lon1 lat2 lon2 : ℝ)
    (h1 : -90 ≤ lat1) (h2 : lat1 ≤ 90) (h3 : -90 ≤ lat2) (h4 : lat2 ≤ 90)
    (_h5 : -180 ≤ lon1) (_h6 : lon1 ≤ 180) (_h7 : -180 ≤ lon2) (_h8 : lon2 ≤ 180) :
    calculateDistance lat1 lon1 lat1 lon1 = 0 ∧
    calculateDistance lat1 lon1 lat2 lon2 = calculateDistance lat2 lon2 lat1 lon1 ∧
    0 ≤ haversineA lat1 lon1 lat2 lon2 ∧ haversineA lat1 lon1 lat2 lon2 ≤ 1 :=
  ⟨calculateDistance_self lat1 lon1, calculateDistance_symm lat1 lon1 lat2 lon2,
    haversineA_nonneg h1 h2 h3 h4, haversineA_le_one h1 h2 h3 h4⟩

/-- Witness for C9 at the concrete valid coordinates (0, 0) and (10, 20). -/
theorem distance_zero_symm_stable_witness :
    ((-90:ℝ) ≤ 0 ∧ (0:ℝ) ≤ 90 ∧ (-90:ℝ) ≤ 10 ∧ (10:ℝ) ≤ 90) ∧
    calculateDistance 0 0 0 0 = 0 ∧
    calculateDistance 0 0 10 20 = calculateDistance 10 20 0 0 ∧
    0 ≤ haversineA 0 0 10 20 ∧ haversineA 0 0 10 20 ≤ 1 := by
  refine ⟨by norm_num, ?_⟩
  exact distance_zero_symm_stable 0 0 10 20 (by norm_num) (by norm_num) (by norm_num)
    (by norm_num) (by norm_num) (by norm_num) (by norm_num) (by norm_num)

/-! Helper lemmas about updateFirst and the handlers. -/

lemma updateFirst_nil (hid : ℕ) (f : Hazard → Hazard) : updateFirst [] hid f = [] := rfl

lemma updateFirst_cons (a : Hazard) (t : List Hazard) (hid : ℕ) (f : Hazard → Hazard) :
    updateFirst (a :: t) hid f
      = if a.id = hid then f a :: t else a :: updateFirst t hid f := rfl

lemma mem_updateFirst {l : List Hazard} {hid : ℕ} {f : Hazard → Hazard} {h : Hazard}
    (hm : h ∈ updateFirst l hid f) : h ∈ l ∨ ∃ g ∈ l, h = f g := by
  induction l with
  | nil => simp [updateFirst_nil] at hm
  | cons a t ih =>
    rw [updateFirst_cons] at hm
    by_cases ha : a.id = hid
    · rw [if_pos ha] at hm
      rcases List.mem_cons.mp hm with he | ht
      · exact Or.inr ⟨a, List.mem_cons_self a t, he⟩
      · exact Or.inl (List.mem_cons_of_mem a ht)
    · rw [if_neg ha] at hm
      rcases List.mem_cons.mp hm with he | ht
      · exact Or.inl (by rw [he]; exact List.mem_cons_self a t)
      · rcases ih ht with hl | ⟨g, hg, he⟩
        · exact Or.inl (List.mem_cons_of_mem a hl)
        · exact Or.inr ⟨g, List.mem_cons_of_mem a hg, he⟩

lemma find?_id_cons (a : Hazard) (t : List Hazard) (hid : ℕ) :
    (a :: t).find? (fun g => g.id == hid)
      = if a.id = hid then some a else t.find? (fun g => g.id == hid) := by
  by_cases ha : a.id = hid
  · rw [if_pos ha]
    exact List.find?_cons_of_pos _ (by simpa using ha : ((fun g => g.id == hid) a) = true)
  · rw [if_neg ha]
    exact List.find?_cons_of_neg _ (by simpa using ha : ¬((fun g => g.id == hid) a) = true)

lemma getElem?_updateFirst (hid : ℕ) (f : Hazard → Hazard) :
    ∀ (l : List Hazard) (i : ℕ) (h h' : Hazard),
      l[i]? = some h → (updateFirst l hid f)[i]? = some h' →
      h' = h ∨ (h' = f h ∧ l.find? (fun g => g.id == hid) = some h) := by
  intro l
  induction l with
  | nil => intro i h h' hg _; simp at hg
  | cons a t ih =>
    intro i h h' hg hg'
    rw [updateFirst_cons] at hg'
    by_cases ha : a.id = hid
    · rw [if_pos ha] at hg'
      cases i with
      | zero =>
        simp only [List.getElem?_cons_zero, Option.some.injEq] at hg hg'
        subst hg; subst hg'
        exact Or.inr ⟨rfl, by rw [find?_id_cons, if_pos ha]⟩
      | succ n =>
        simp only [List.getElem?_cons_succ] at hg hg'
        rw [hg] at hg'
        injection hg' with hg'
        exact Or.inl hg'.symm
    · rw [if_neg ha] at hg'
      cases i with
      | zero =>
        simp only [List.getElem?_cons_zero, Option.some.injEq] at hg hg'
        subst hg; subst hg'
        exact Or.inl rfl
      | succ n =>
        simp only [List.getElem?_cons_succ] at hg hg'
        rcases ih n h h' hg hg' with hl | ⟨h1, h2⟩
        · exact Or.inl hl
        · refine Or.inr ⟨h1, ?_⟩
          rw [find?_id_cons, if_neg ha]
          exact h2

lemma find?_updateFirst {l : List Hazard} {hid : ℕ} {f : Hazard → Hazard} {h : Hazard}
    (hfind : l.find? (fun g => g.id == hid) = some h) (hf : (f h).id = h.id) :
    (updateFirst l hid f).find? (fun g => g.id == hid) = some (f h) := by
  induction l with
  | nil => simp at hfind
  | cons a t ih =>
    rw [updateFirst_cons]
    rw [find?_id_cons] at hfind
    by_cases ha : a.id = hid
    · rw [if_pos ha] at hfind ⊢
      injection hfind with he
      subst he
      rw [find?_id_cons, if_pos (by rw [hf]; exact ha)]
    · rw [if_neg ha] at hfind ⊢
      rw [find?_id_cons, if_neg ha]
      exact ih hfind

lemma resolveHandler_of_found {hs : List Hazard} {hid : ℕ} (lat lng : ℝ) (dev : String)
    (img : Option String) (now : ℕ) {h : Hazard}
    (hfind : hs.find? (fun g => g.id == hid) = some h) :
    resolveHandler hs hid lat lng dev img now =
      if h.status = Status.resolved then (hs, ResolveResult.alreadyResolved, [])
      else if 1 < calculateDistance lat lng h.latitude h.longitude then
        (hs, ResolveResult.tooFar (calculateDistance lat lng h.latitude h.longitude), [])
      else (updateFirst hs hid (resolveUpdate dev img now),
        ResolveResult.resolved (resolveUpdate dev img now h),
        [Event.hazardResolved h.id now dev]) := by
  unfold resolveHandler
  rw [hfind]

lemma resolveHandler_of_not_found {hs : List Hazard} {hid : ℕ} (lat lng : ℝ) (dev : String)
    (img : Option String) (now : ℕ)
    (hfind : hs.find? (fun g => g.id == hid) = none) :
    resolveHandler hs hid lat lng dev img now = (hs, ResolveResult.notFound, []) := by
  unfold resolveHandler
  rw [hfind]

lemma reportHandler_of_dup {hs : List Hazard} (users : Registry) {inp : ReportInput} {now : ℕ}
    (hdup : isDuplicate hs inp.latitude inp.longitude inp.type now = true) :
    reportHandler hs users inp now = (hs, ReportResult.duplicate, []) := by
  unfold reportHandler
  rw [hdup]
  simp

lemma reportHandler_of_not_dup {hs : List Hazard} (users : Registry) {inp : ReportInput}
    {now : ℕ}
    (hdup : isDuplicate hs inp.latitude inp.longitude inp.type now = false) :
    reportHandler hs users inp now
      = (hs ++ [mkHazard inp now], ReportResult.created (mkHazard inp now),
        Event.hazardAlert (mkHazard inp now) ::
          users.filterMap (proximityEventFor inp (mkHazard inp now))) := by
  unfold reportHandler
  rw [hdup]
  simp

/-! Concrete data used by the witnesses and counterexamples. -/

/-- A device identifier used by concrete scenarios. -/
def devA : String := "device-a"

/-- A report input: a pothole at the origin. -/
def hzInpA : ReportInput :=
  { type := "pothole"
    latitude := 0
    longitude := 0
    severity := "medium"
    deviceId := "d1"
    confidence := none
    imageUrl := none }

/-- A report input: a pothole at the origin with confidence zero. -/
def hzInpZero : ReportInput :=
  { type := "pothole"
    latitude := 0
    longitude := 0
    severity := "medium"
    deviceId := "d1"
    confidence := some 0
    imageUrl := none }

/-- An active hazard sitting at the origin. -/
def hzOrigin : Hazard :=
  { id := 5
    type := "pothole"
    latitude := 0
    longitude := 0
    severity := "high"
    confidence := 100
    imageUrl := none
    timestamp := 0
    status := Status.active
    reportedBy := "d1"
    resolvedBy := none
    resolvedAt := none
    resolvedImageUrl := none }

/-- An already resolved hazard at the origin. -/
def hzDone : Hazard :=
  { id := 7
    type := "debris"
    latitude := 0
    longitude := 0
    severity := "low"
    confidence := 90
    imageUrl := none
    timestamp := 0
    status := Status.resolved
    reportedBy := "d1"
    resolvedBy := some "d2"
    resolvedAt := some 50
    resolvedImageUrl := some "img-7"
    }

/-- Distance from the origin to the point a quarter turn away along the
equator, as computed by the source formula: 6371 times pi. -/
lemma calculateDistance_antimeridian : calculateDistance 0 180 0 0 = 6371 * Real.pi := by
  have hhav : haversineA 0 180 0 0 = 1 := by
    unfold haversineA
    have e1 : ((0:ℝ) - 0) * Real.pi / 180 / 2 = 0 := by ring
    have e2 : ((0:ℝ) - 180) * Real.pi / 180 / 2 = -(Real.pi / 2) := by ring
    have e3 : (0:ℝ) * Real.pi / 180 = 0 := by ring
    rw [e1, e2, e3]
    simp [Real.sin_pi_div_two]
  unfold calculateDistance
  rw [hhav]
  have hsq : (1:ℝ) - 1 = 0 := by norm_num
  rw [hsq, Real.sqrt_zero, Real.sqrt_one]
  have hat : atan2 1 0 = Real.pi / 2 := by
    unfold atan2
    norm_num
  rw [hat]
  ring

lemma one_lt_calculateDistance_antimeridian : 1 < calculateDistance 0 180 0 0 := by
  rw [calculateDistance_antimeridian]
  nlinarith [Real.pi_gt_three]

/-- C4: resolving an existing active hazard from a point whose haversine
distance to the hazard exceeds 1 km returns TooFar carrying the measured
distance and leaves the store, hence the hazard, entirely unchanged. -/
theorem resolve_too_far (hs : List Hazard) (hid : ℕ) (lat lng : ℝ) (dev : String)
    (img : Option String) (now : ℕ) (h : Hazard)
    (hfind : hs.find? (fun g => g.id == hid) = some h)
    (hactive : h.status = Status.active)
    (hfar : 1 < calculateDistance lat lng h.latitude h.longitude) :
    resolveHandler hs hid lat lng dev img now
      = (hs, ResolveResult.tooFar (calculateDistance lat lng h.latitude h.longitude), []) := by
  rw [resolveHandler_of_found lat lng dev img now hfind]
  rw [if_neg (by rw [hactive]; simp), if_pos hfar]

/-- Witness for C4: the hazard at the origin, resolved from longitude 180. -/
theorem resolve_too_far_witness :
    ([hzOrigin].find? (fun g => g.id == 5) = some hzOrigin ∧
      hzOrigin.status = Status.active ∧
      1 < calculateDistance 0 180 hzOrigin.latitude hzOrigin.longitude) ∧
    resolveHandler [hzOrigin] 5 0 180 devA none 99
      = ([hzOrigin],
        ResolveResult.tooFar (calculateDistance 0 180 hzOrigin.latitude hzOrigin.longitude),
        []) := by
  have hfind : [hzOrigin].find? (fun g => g.id == 5) = some hzOrigin := by
    rw [find?_id_cons, if_pos (show hzOrigin.id = 5 from rfl)]
  have hfar : 1 < calculateDistance 0 180 hzOrigin.latitude hzOrigin.longitude :=
    one_lt_calculateDistance_antimeridian
  exact ⟨⟨hfind, rfl, hfar⟩,
    resolve_too_far [hzOrigin] 5 0 180 devA none 99 hzOrigin hfind rfl hfar⟩

/-- C5: resolving an already resolved hazard returns AlreadyResolved and
changes nothing, and after a successful resolution a second resolve call on
the same id returns AlreadyResolved and leaves the store unchanged, so the
transition is never applied twice. -/
theorem resolve_already_resolved_idempotent :
    (∀ (hs : List Hazard) (hid : ℕ) (lat lng : ℝ) (dev : String) (img : Option String)
        (now : ℕ) (h : Hazard),
      hs.find? (fun g => g.id == hid) = some h → h.status = Status.resolved →
      resolveHandler hs hid lat lng dev img now = (hs, ResolveResult.alreadyResolved, [])) ∧
    (∀ (hs : List Hazard) (hid : ℕ) (lat lng : ℝ) (dev : String) (img : Option String)
        (now : ℕ) (h : Hazard) (lat' lng' : ℝ) (dev' : String) (img' : Option String)
        (now' : ℕ),
      (resolveHandler hs hid lat lng dev img now).2.1 = ResolveResult.resolved h →
      resolveHandler (resolveHandler hs hid lat lng dev img now).1 hid lat' lng' dev' img' now'
        = ((resolveHandler hs hid lat lng dev img now).1,
          ResolveResult.alreadyResolved, [])) := by
  have part1 : ∀ (hs : List Hazard) (hid : ℕ) (lat lng : ℝ) (dev : String)
      (img : Option String) (now : ℕ) (h : Hazard),
      hs.find? (fun g => g.id == hid) = some h → h.status = Status.resolved →
      resolveHandler hs hid lat lng dev img now = (hs, ResolveResult.alreadyResolved, []) := by
    intro hs hid lat lng dev img now h hfind hres
    rw [resolveHandler_of_found lat lng dev img now hfind, if_pos hres]
  refine ⟨part1, ?_⟩
  intro hs hid lat lng dev img now h lat' lng' dev' img' now' hres
  cases hfind : hs.find? (fun g => g.id == hid) with
  | none =>
    rw [resolveHandler_of_not_found lat lng dev img now hfind] at hres
    exact absurd hres (by simp)
  | some h₀ =>
    rw [resolveHandler_of_found lat lng dev img now hfind] at hres ⊢
    by_cases hstat : h₀.status = Status.resolved
    · rw [if_pos hstat] at hres
      exact absurd hres (by simp)
    · rw [if_neg hstat] at hres ⊢
      by_cases hfar : 1 < calculateDistance lat lng h₀.latitude h₀.longitude
      · rw [if_pos hfar] at hres
        exact absurd hres (by simp)
      · rw [if_neg hfar] at hres ⊢
        have hfind' : (updateFirst hs hid (resolveUpdate dev img now)).find?
            (fun g => g.id == hid) = some (resolveUpdate dev img now h₀) :=
          find?_updateFirst hfind rfl
        exact part1 _ hid lat' lng' dev' img' now' _ hfind' rfl

/-- Witness for C5: resolving the already resolved hazard hzDone. -/
theorem resolve_already_resolved_witness :
    ([hzDone].find? (fun g => g.id == 7) = some hzDone ∧
      hzDone.status = Status.resolved) ∧
    resolveHandler [hzDone] 7 0 0 devA none 99
      = ([hzDone], ResolveResult.alreadyResolved, []) := by
  have hfind : [hzDone].find? (fun g => g.id == 7) = some hzDone := by
    rw [find?_id_cons, if_pos (show hzDone.id = 7 from rfl)]
  exact ⟨⟨hfind, rfl⟩,
    resolve_already_resolved_idempotent.1 [hzDone] 7 0 0 devA none 99 hzDone hfind rfl⟩

/-! The hazard lifecycle invariant (claim C3). -/

lemma reportHandler_fst (hs : List Hazard) (users : Registry) (inp : ReportInput) (now : ℕ) :
    (reportHandler hs users inp now).1
      = if isDuplicate hs inp.latitude inp.longitude inp.type now then hs
        else hs ++ [mkHazard inp now] := by
  unfold reportHandler
  split
  next => rfl
  next => rfl

/-- C3: in every store reachable by report and resolve requests, resolvedAt is
set exactly when the status is resolved; hazards are created active with a
null resolvedAt; a resolve step never changes a resolved hazard and moves an
active one at most to its resolved update; a report step never changes an
existing hazard. -/
theorem hazard_lifecycle_invariant :
    (∀ hs, Reachable hs → ∀ h ∈ hs, (h.resolvedAt ≠ none ↔ h.status = Status.resolved)) ∧
    (∀ (inp : ReportInput) (now : ℕ),
      (mkHazard inp now).status = Status.active ∧ (mkHazard inp now).resolvedAt = none) ∧
    (∀ (hs : List Hazard) (hid : ℕ) (lat lng : ℝ) (dev : String) (img : Option String)
        (now : ℕ) (i : ℕ) (h h' : Hazard),
      hs[i]? = some h → (resolveHandler hs hid lat lng dev img now).1[i]? = some h' →
      (h.status = Status.resolved → h' = h) ∧
      (h.status = Status.active → h' = h ∨ h' = resolveUpdate dev img now h)) ∧
    (∀ (hs : List Hazard) (users : Registry) (inp : ReportInput) (now : ℕ) (i : ℕ)
        (h h' : Hazard),
      hs[i]? = some h → (reportHandler hs users inp now).1[i]? = some h' → h' = h) := by
  refine ⟨?_, ?_, ?_, ?_⟩
  · intro hs hreach
    induction hreach with
    | init => intro h hm; simp at hm
    | report hs users inp now _ ih =>
      intro h hm
      rw [reportHandler_fst] at hm
      split at hm
      · exact ih h hm
      · rcases List.mem_append.mp hm with hmem | hnew
        · exact ih h hmem
        · rw [List.mem_singleton] at hnew
          subst hnew
          simp [mkHazard]
    | resolve hs hid lat lng dev img now _ ih =>
      intro h hm
      cases hfind : hs.find? (fun g => g.id == hid) with
      | none =>
        rw [resolveHandler_of_not_found lat lng dev img now hfind] at hm
        exact ih h hm
      | some h₀ =>
        rw [resolveHandler_of_found lat lng dev img now hfind] at hm
        by_cases hstat : h₀.status = Status.resolved
        · rw [if_pos hstat] at hm
          exact ih h hm
        · rw [if_neg hstat] at hm
          by_cases hfar : 1 < calculateDistance lat lng h₀.latitude h₀.longitude
          · rw [if_pos hfar] at hm
            exact ih h hm
          · rw [if_neg hfar] at hm
            have hm2 : h ∈ updateFirst hs hid (resolveUpdate dev img now) := hm
            rcases mem_updateFirst hm2 with hmem | ⟨g, _, he⟩
            · exact ih h hmem
            · subst he
              simp [resolveUpdate]
  · intro inp now
    exact ⟨rfl, rfl⟩
  · intro hs hid lat lng dev img now i h h' hg hg'
    cases hfind : hs.find? (fun g => g.id == hid) with
    | none =>
      rw [resolveHandler_of_not_found lat lng dev img now hfind] at hg'
      have hg2 : hs[i]? = some h' := hg'
      rw [hg] at hg2
      injection hg2 with he
      exact ⟨fun _ => he.symm, fun _ => Or.inl he.symm⟩
    | some h₀ =>
      rw [resolveHandler_of_found lat lng dev img now hfind] at hg'
      by_cases hstat : h₀.status = Status.resolved
      · rw [if_pos hstat] at hg'
        have hg2 : hs[i]? = some h' := hg'
        rw [hg] at hg2
        injection hg2 with he
        exact ⟨fun _ => he.symm, fun _ => Or.inl he.symm⟩
      · rw [if_neg hstat] at hg'
        by_cases hfar : 1 < calculateDistance lat lng h₀.latitude h₀.longitude
        · rw [if_pos hfar] at hg'
          have hg2 : hs[i]? = some h' := hg'
          rw [hg] at hg2
          injection hg2 with he
          exact ⟨fun _ => he.symm, fun _ => Or.inl he.symm⟩
        · rw [if_neg hfar] at hg'
          have hg2 : (updateFirst hs hid (resolveUpdate dev img now))[i]? = some h' := hg'
          rcases getElem?_updateFirst hid (resolveUpdate dev img now) hs i h h' hg hg2
            with he | ⟨he, hfound⟩
          · exact ⟨fun _ => he, fun _ => Or.inl he⟩
          · rw [hfind] at hfound
            injection hfound with hh
            constructor
            · intro hres
              exact absurd (hh ▸ hres) hstat
            · intro _
              exact Or.inr he
  · intro hs users inp now i h h' hg hg'
    rw [reportHandler_fst] at hg'
    split at hg'
    · rw [hg] at hg'
      injection hg' with he
      exact he.symm
    · have hi : i < hs.length := (List.getElem?_eq_some_iff.mp hg).1
      rw [List.getElem?_append_left hi] at hg'
      rw [hg] at hg'
      injection hg' with he
      exact he.symm

/-- Witness for C3: the singleton store created by one report on the empty
store is reachable and its hazard satisfies the resolvedAt iff. -/
theorem hazard_lifecycle_invariant_witness :
    (mkHazard hzInpA 1000 ∈ (reportHandler [] [] hzInpA 1000).1 ∧
      Reachable (reportHandler [] [] hzInpA 1000).1) ∧
    ((mkHazard hzInpA 1000).resolvedAt ≠ none ↔ (mkHazard hzInpA 1000).status = Status.resolved) := by
  have hreach : Reachable (reportHandler [] [] hzInpA 1000).1 :=
    Reachable.report [] [] hzInpA 1000 Reachable.init
  have hmem : mkHazard hzInpA 1000 ∈ (reportHandler [] [] hzInpA 1000).1 := by
    rw [reportHandler_fst]
    rw [if_neg (by rw [isDuplicate_nil]; simp)]
    simp
  exact ⟨⟨hmem, hreach⟩,
    hazard_lifecycle_invariant.1 (reportHandler [] [] hzInpA 1000).1 hreach
      (mkHazard hzInpA 1000) hmem⟩

/-! Dispatch, concurrency and confidence claims. -/

lemma proximityEventFor_eq_some_iff (inp : ReportInput) (hazard : Hazard)
    (e : String × ConnectedUser) (ev : Event) :
    proximityEventFor inp hazard e = some ev ↔
      calculateDistance e.2.latitude e.2.longitude inp.latitude inp.longitude ≤ 1 ∧
      ev = Event.proximityAlert e.2.socketId hazard
        (round2 (calculateDistance e.2.latitude e.2.longitude inp.latitude inp.longitude)) := by
  simp only [proximityEventFor]
  by_cases hd : calculateDistance e.2.latitude e.2.longitude inp.latitude inp.longitude ≤ 1
  · rw [if_pos hd]
    constructor
    · intro hsome
      injection hsome with he
      exact ⟨hd, he.symm⟩
    · rintro ⟨_, he⟩
      rw [he]
  · rw [if_neg hd]
    constructor
    · intro hnone
      exact Option.noConfusion hnone
    · rintro ⟨hle, _⟩
      exact absurd hle hd

lemma created_eq_mkHazard {hs : List Hazard} {users : Registry} {inp : ReportInput}
    {now : ℕ} {h : Hazard}
    (hc : (reportHandler hs users inp now).2.1 = ReportResult.created h) :
    h = mkHazard inp now ∧
      isDuplicate hs inp.latitude inp.longitude inp.type now = false := by
  cases hdup : isDuplicate hs inp.latitude inp.longitude inp.type now with
  | true =>
    rw [reportHandler_of_dup users hdup] at hc
    have hc2 : ReportResult.duplicate = ReportResult.created h := hc
    exact absurd hc2 (by simp)
  | false =>
    rw [reportHandler_of_not_dup users hdup] at hc
    have hc2 : ReportResult.created (mkHazard inp now) = ReportResult.created h := hc
    injection hc2 with he
    exact ⟨he.symm, rfl⟩

/-- C6: when a report creates a hazard, exactly one global broadcast of the
full record is emitted, every registered user within 1 km of the hazard gets a
proximity alert addressed to their connection carrying the hazard and the
2-decimal rounded distance, and every proximity alert emitted originates from
some registered user within 1 km; farther users receive none. -/
theorem report_dispatch_events (hs : List Hazard) (users : Registry) (inp : ReportInput)
    (now : ℕ) (h : Hazard)
    (hc : (reportHandler hs users inp now).2.1 = ReportResult.created h) :
    ((reportHandler hs users inp now).2.2.filter (fun e => e.isGlobalHazardAlert))
        = [Event.hazardAlert h] ∧
    (∀ uid u, (uid, u) ∈ users →
      calculateDistance u.latitude u.longitude inp.latitude inp.longitude ≤ 1 →
      Event.proximityAlert u.socketId h
          (round2 (calculateDistance u.latitude u.longitude inp.latitude inp.longitude))
        ∈ (reportHandler hs users inp now).2.2) ∧
    (∀ sid h2 d, Event.proximityAlert sid h2 d ∈ (reportHandler hs users inp now).2.2 →
      ∃ uid u, (uid, u) ∈ users ∧ u.socketId = sid ∧ h2 = h ∧
        calculateDistance u.latitude u.longitude inp.latitude inp.longitude ≤ 1 ∧
        d = round2 (calculateDistance u.latitude u.longitude inp.latitude inp.longitude)) := by
  obtain ⟨he, hdup⟩ := created_eq_mkHazard hc
  subst he
  have hev : (reportHandler hs users inp now).2.2
      = Event.hazardAlert (mkHazard inp now)
        :: users.filterMap (proximityEventFor inp (mkHazard inp now)) := by
    rw [reportHandler_of_not_dup users hdup]
  rw [hev]
  refine ⟨?_, ?_, ?_⟩
  · rw [List.filter_cons_of_pos (by rfl)]
    have hrest : (users.filterMap (proximityEventFor inp (mkHazard inp now))).filter
        (fun e => e.isGlobalHazardAlert) = [] := by
      rw [List.filter_eq_nil_iff]
      intro ev hevm
      rcases List.mem_filterMap.mp hevm with ⟨a, _, hfa⟩
      rcases (proximityEventFor_eq_some_iff inp (mkHazard inp now) a ev).mp hfa with ⟨_, hevv⟩
      rw [hevv]
      simp [Event.isGlobalHazardAlert]
    rw [hrest]
  · intro uid u hm hle
    apply List.mem_cons_of_mem
    apply List.mem_filterMap.mpr
    refine ⟨(uid, u), hm, ?_⟩
    exact (proximityEventFor_eq_some_iff inp (mkHazard inp now) (uid, u) _).mpr ⟨hle, rfl⟩
  · intro sid h2 d hm
    rcases List.mem_cons.mp hm with hcon | hrest
    · exact absurd hcon (by simp)
    · rcases List.mem_filterMap.mp hrest with ⟨a, ham, hfa⟩
      rcases (proximityEventFor_eq_some_iff inp (mkHazard inp now) a _).mp hfa with ⟨hle, hevv⟩
      injection hevv with hsid hh hd
      exact ⟨a.1, a.2, ham, hsid.symm, hh, hle, hd⟩

/-- Witness for C6: one user registered at the hazard location receives the
proximity alert of a freshly created hazard. -/
theorem report_dispatch_events_witness :
    (reportHandler [] [(devA, ⟨"socket-w", 0, 0⟩)] hzInpA 1000).2.1
        = ReportResult.created (mkHazard hzInpA 1000) ∧
    Event.proximityAlert (⟨"socket-w", 0, 0⟩ : ConnectedUser).socketId (mkHazard hzInpA 1000)
        (round2 (calculateDistance (⟨"socket-w", 0, 0⟩ : ConnectedUser).latitude
          (⟨"socket-w", 0, 0⟩ : ConnectedUser).longitude hzInpA.latitude hzInpA.longitude))
      ∈ (reportHandler [] [(devA, ⟨"socket-w", 0, 0⟩)] hzInpA 1000).2.2 := by
  have hc : (reportHandler [] [(devA, ⟨"socket-w", 0, 0⟩)] hzInpA 1000).2.1
      = ReportResult.created (mkHazard hzInpA 1000) := by
    rw [reportHandler_of_not_dup _ (isDuplicate_nil _ _ _ _)]
  have hle : calculateDistance (⟨"socket-w", 0, 0⟩ : ConnectedUser).latitude
      (⟨"socket-w", 0, 0⟩ : ConnectedUser).longitude hzInpA.latitude hzInpA.longitude ≤ 1 := by
    show calculateDistance (0:ℝ) 0 0 0 ≤ 1
    rw [calculateDistance_self]
    norm_num
  exact ⟨hc, (report_dispatch_events [] [(devA, ⟨"socket-w", 0, 0⟩)] hzInpA 1000
    (mkHazard hzInpA 1000) hc).2.1 devA ⟨"socket-w", 0, 0⟩ (List.mem_singleton_self _) hle⟩

/-- C8: handler invocations are serialized by the single-threaded runtime and
the duplicate check plus insert run inside one synchronous handler, modelled
here as one atomic step; for two identical reports whose timestamps fall
within the 300000 ms window, the first creates the hazard and the second is
reported as a duplicate and inserts nothing. -/
theorem concurrent_identical_reports (hs : List Hazard) (users users2 : Registry)
    (inp : ReportInput) (t1 t2 : ℕ)
    (hfresh : isDuplicate hs inp.latitude inp.longitude inp.type t1 = false)
    (hwin : t2 < t1 + 300000) :
    (reportHandler hs users inp t1).2.1 = ReportResult.created (mkHazard inp t1) ∧
    (reportHandler (reportHandler hs users inp t1).1 users2 inp t2).2.1
        = ReportResult.duplicate ∧
    (reportHandler (reportHandler hs users inp t1).1 users2 inp t2).1
        = (reportHandler hs users inp t1).1 := by
  have hstore : (reportHandler hs users inp t1).1 = hs ++ [mkHazard inp t1] := by
    rw [reportHandler_of_not_dup users hfresh]
  have hdup2 : isDuplicate (hs ++ [mkHazard inp t1]) inp.latitude inp.longitude
      inp.type t2 = true := by
    rw [isDuplicate_iff]
    refine ⟨mkHazard inp t1, List.mem_append_right _ (List.mem_singleton_self _),
      rfl, rfl, ?_, ?_⟩
    · show calculateDistance inp.latitude inp.longitude inp.latitude inp.longitude < 0.1
      rw [calculateDistance_self]
      norm_num
    · show (t2 : ℤ) - (t1 : ℤ) < 300000
      omega
  refine ⟨by rw [reportHandler_of_not_dup users hfresh], ?_, ?_⟩
  · rw [hstore, reportHandler_of_dup users2 hdup2]
  · rw [hstore, reportHandler_of_dup users2 hdup2]

/-- Witness for C8: two identical pothole reports one second apart on the
empty store. -/
theorem concurrent_identical_reports_witness :
    (isDuplicate [] hzInpA.latitude hzInpA.longitude hzInpA.type 1000 = false ∧
      2000 < 1000 + 300000) ∧
    (reportHandler [] [] hzInpA 1000).2.1 = ReportResult.created (mkHazard hzInpA 1000) ∧
    (reportHandler (reportHandler [] [] hzInpA 1000).1 [] hzInpA 2000).2.1
        = ReportResult.duplicate ∧
    (reportHandler (reportHandler [] [] hzInpA 1000).1 [] hzInpA 2000).1
        = (reportHandler [] [] hzInpA 1000).1 := by
  refine ⟨⟨isDuplicate_nil _ _ _ _, by norm_num⟩, ?_⟩
  exact concurrent_identical_reports [] [] [] hzInpA 1000 2000
    (isDuplicate_nil _ _ _ _) (by norm_num)

/-- C10: a falsy confidence value, zero or absent, is replaced by the default
100 in the stored hazard, while a nonzero supplied confidence is stored
unchanged. -/
theorem confidence_zero_defaulted (hs : List Hazard) (users : Registry) (inp : ReportInput)
    (now : ℕ) (h : Hazard)
    (hc : (reportHandler hs users inp now).2.1 = ReportResult.created h) :
    ((inp.confidence = some 0 ∨ inp.confidence = none) → h.confidence = 100) ∧
    (∀ n, inp.confidence = some n → n ≠ 0 → h.confidence = n) := by
  obtain ⟨he, _⟩ := created_eq_mkHazard hc
  subst he
  constructor
  · rintro (hz | hz) <;> simp [mkHazard, jsNumberOrDefault, hz]
  · intro n hn hnz
    simp [mkHazard, jsNumberOrDefault, hn, hnz]

/-- Witness for C10: a report carrying confidence 0 is stored with
confidence 100. -/
theorem confidence_zero_defaulted_witness :
    (reportHandler [] [] hzInpZero 1000).2.1 = ReportResult.created (mkHazard hzInpZero 1000) ∧
    (mkHazard hzInpZero 1000).confidence = 100 := by
  have hc : (reportHandler [] [] hzInpZero 1000).2.1
      = ReportResult.created (mkHazard hzInpZero 1000) := by
    rw [reportHandler_of_not_dup _ (isDuplicate_nil _ _ _ _)]
  exact ⟨hc, (confidence_zero_defaulted [] [] hzInpZero 1000 _ hc).1 (Or.inl rfl)⟩

/-! Identifier collision and disconnect cleanup (claims C2 and C7). -/

/-- A report input: debris at the origin. -/
def hzInpB : ReportInput :=
  { type := "debris"
    latitude := 0
    longitude := 0
    severity := "low"
    deviceId := "d2"
    confidence := none
    imageUrl := none }

/-- C2 fails on the code: ids come from the millisecond clock, so two
reports handled in the same millisecond create two distinct hazards sharing
one id. Here a pothole and a debris report both arrive at time 1000; the
debris report is not a duplicate since the types differ, yet both created
hazards carry id 1000. -/
theorem report_id_collision_same_millisecond :
    (reportHandler [] [] hzInpA 1000).2.1 = ReportResult.created (mkHazard hzInpA 1000) ∧
    (reportHandler (reportHandler [] [] hzInpA 1000).1 [] hzInpB 1000).2.1
        = ReportResult.created (mkHazard hzInpB 1000) ∧
    (mkHazard hzInpA 1000).id = (mkHazard hzInpB 1000).id ∧
    mkHazard hzInpA 1000 ≠ mkHazard hzInpB 1000 := by
  have hstore : (reportHandler [] [] hzInpA 1000).1 = [mkHazard hzInpA 1000] := by
    rw [reportHandler_fst, if_neg (by rw [isDuplicate_nil]; simp)]
    simp
  have hne : ¬ (isDuplicate [mkHazard hzInpA 1000] hzInpB.latitude hzInpB.longitude
      hzInpB.type 1000 = true) := by
    rw [isDuplicate_iff]
    rintro ⟨h, hm, _, hty, _, _⟩
    rw [List.mem_singleton] at hm
    subst hm
    exact absurd hty (by simp [mkHazard, hzInpA, hzInpB])
  have hdup : isDuplicate [mkHazard hzInpA 1000] hzInpB.latitude hzInpB.longitude
      hzInpB.type 1000 = false := by
    cases hb : isDuplicate [mkHazard hzInpA 1000] hzInpB.latitude hzInpB.longitude
        hzInpB.type 1000 with
    | false => rfl
    | true => exact absurd hb hne
  refine ⟨?_, ?_, rfl, ?_⟩
  · rw [reportHandler_of_not_dup [] (isDuplicate_nil _ _ _ _)]
  · rw [hstore, reportHandler_of_not_dup [] hdup]
  · intro he
    have hty := congrArg Hazard.type he
    simp [mkHazard, hzInpA, hzInpB] at hty

/-- The socket shared by the scenario connections. -/
def sid1 : String := "socket-1"

/-- First user identity. -/
def uidA : String := "user-a"

/-- Second user identity. -/
def uidB : String := "user-b"

/-- Third user identity. -/
def uidC : String := "user-c"

/-- Registry after two users registered locations over the same connection. -/
def regAB : Registry := registerLocation (registerLocation [] uidA sid1 0 0) uidB sid1 0 0

/-- Registry after three users registered locations over the same connection. -/
def regABC : Registry := registerLocation regAB uidC sid1 0 0

/-- C7 fails on the code: the disconnect loop deletes only the first entry
bound to the socket and then breaks. After two registrations over socket-1
and a disconnect of socket-1, the second user is still registered against the
dead connection and still receives a proximity alert for a hazard at their
location; after three registrations and one disconnect, two remaining entries
share the same connectionId. -/
theorem disconnect_cleanup_incomplete :
    handleDisconnect regAB sid1 = [(uidB, ⟨sid1, 0, 0⟩)] ∧
    (handleDisconnect regABC sid1).map (fun e => e.2.socketId) = [sid1, sid1] ∧
    Event.proximityAlert sid1 (mkHazard hzInpA 1000)
        (round2 (calculateDistance (0:ℝ) 0 0 0))
      ∈ (reportHandler [] (handleDisconnect regAB sid1) hzInpA 1000).2.2 := by
  have hreg : handleDisconnect regAB sid1 = [(uidB, ⟨sid1, 0, 0⟩)] := by rfl
  refine ⟨hreg, by rfl, ?_⟩
  rw [reportHandler_of_not_dup _ (isDuplicate_nil _ _ _ _), hreg]
  apply List.mem_cons_of_mem
  apply List.mem_filterMap.mpr
  refine ⟨(uidB, ⟨sid1, 0, 0⟩), List.mem_singleton_self _, ?_⟩
  apply (proximityEventFor_eq_some_iff hzInpA (mkHazard hzInpA 1000) _ _).mpr
  constructor
  · show calculateDistance (0:ℝ) 0 0 0 ≤ 1
    rw [calculateDistance_self]
    norm_num
  · rfl

end RoadHazard
